import Mathlib

/-!
Verification development for the `tgbot` repository (single Go source file
`src/main.go`): a shallow embedding of its data model and of the `GetFile`
operation, together with models — written from the design document — of the
parts of the system that the source file only declares (the long-poll
`Poller` loop, the command extraction for text messages, and the file
resolver branches for non-remote-id references).

Conventions of the embedding:
- Go `int`/`int64` fields become `Int`; Go `string` becomes `String`.
- Go pointer fields (`*T`, nil-able) become `Option T`.
- Go byte streams (`io.Reader`, `io.ReadCloser`, response bodies) become
  abstract handles of type `Nat`.
- Types that `src/main.go` references but does not define (they live in the
  rest of the repository, e.g. `Audio`, `Document`, `ChatMember`) are inert
  payload records per the design document; they are modelled as empty
  structures because no claim inspects their contents.
- Effectful collaborators (the transport call `FileByID`, `http.NewRequest`,
  `client.Do`, the filesystem) become oracle functions supplied in a
  structure, and the effects a run performs (metadata calls issued, URLs
  requested, bodies closed) are returned explicitly as part of the result.
-/

namespace Telebot

/-! ## Inert scalar type aliases (Go `type X string` declarations) -/

/-- Go `type EntityType string` (src line 495). -/
abbrev EntityType := String

/-- Go `type ChatType string` (src line 382). -/
abbrev ChatType := String

/-- Go `type PollType string` (src line 488). -/
abbrev PollType := String

/-- Go `type ParseMode = string` (src line 497). -/
abbrev ParseMode := String

/-! ## Leaf record types defined in `src/main.go` -/

/-- Translation of `User` (src lines 13-26). -/
structure User where
  ID : Int
  FirstName : String
  LastName : String
  Username : String
  LanguageCode : String
  IsBot : Bool
  CanJoinGroups : Bool
  CanReadMessages : Bool
  SupportsInline : Bool
deriving DecidableEq

/-- Translation of `MessageEntity` (src lines 28-48).  The Go field `Type`
is rendered `Type'` because `Type` is a Lean keyword. -/
structure MessageEntity where
  Type' : EntityType
  Offset : Int
  Length : Int
  URL : String
  User : Option User
  Language : String
deriving DecidableEq

/-- Translation of `Location` (src lines 303-319). Go `float32` coordinates
are modelled as rationals. -/
structure Location where
  Lat : Rat
  Lng : Rat
  HorizontalAccuracy : Option Rat
  LivePeriod : Int
  Heading : Int
  ProximityAlertRadius : Int
deriving DecidableEq

/-- Translation of `ChatPhoto` (src lines 384-392). -/
structure ChatPhoto where
  SmallFileID : String
  SmallFileUniqueID : String
  BigFileID : String
  BigFileUniqueID : String
deriving DecidableEq

/-- Translation of `Rights` (src lines 394-411). -/
structure Rights where
  CanBeEdited : Bool
  CanChangeInfo : Bool
  CanPostMessages : Bool
  CanEditMessages : Bool
  CanDeleteMessages : Bool
  CanInviteUsers : Bool
  CanRestrictMembers : Bool
  CanPinMessages : Bool
  CanPromoteMembers : Bool
  CanSendMessages : Bool
  CanSendMedia : Bool
  CanSendPolls : Bool
  CanSendOther : Bool
  CanAddPreviews : Bool
  CanManageVoiceChats : Bool
  CanManageChat : Bool
deriving DecidableEq

/-- Translation of `ChatLocation` (src lines 413-416). -/
structure ChatLocation where
  Location : Location
  Address : String
deriving DecidableEq

/-- Translation of `ShippingAddress` (src lines 373-380). -/
structure ShippingAddress where
  CountryCode : String
  State : String
  City : String
  StreetLine1 : String
  StreetLine2 : String
  PostCode : String
deriving DecidableEq

/-- Translation of `Order` (src lines 356-361). -/
structure Order where
  Name : String
  PhoneNumber : String
  Email : String
  Address : ShippingAddress
deriving DecidableEq

/-- Translation of `PollOption` (src lines 490-493). -/
structure PollOption where
  Text : String
  VoterCount : Int
deriving DecidableEq

/-- Translation of `Poll` (src lines 517-538).  The Go field `Type` is
rendered `Type'` because `Type` is a Lean keyword. -/
structure Poll where
  ID : String
  Type' : PollType
  Question : String
  Options : List PollOption
  VoterCount : Int
  Closed : Bool
  CorrectOption : Int
  MultipleAnswers : Bool
  Explanation : String
  ParseMode : ParseMode
  Entities : List MessageEntity
  Anonymous : Bool
  OpenPeriod : Int
  CloseUnixdate : Int
deriving DecidableEq

/-- Translation of `PollAnswer` (src lines 540-544). -/
structure PollAnswer where
  PollID : String
  User : User
  Options : List Int
deriving DecidableEq

/-- Translation of `Query` (src lines 321-339). -/
structure Query where
  ID : String
  From : User
  Location : Option Location
  Text : String
  Offset : String
  ChatType : String
deriving DecidableEq

/-- Translation of `ChosenInlineResult` (src lines 341-347). -/
structure ChosenInlineResult where
  From : User
  Location : Option Location
  ResultID : String
  Query : String
  MessageID : String
deriving DecidableEq

/-- Translation of `ShippingQuery` (src lines 349-354). -/
structure ShippingQuery where
  Sender : Option User
  ID : String
  Payload : String
  Address : ShippingAddress
deriving DecidableEq

/-- Translation of `PreCheckoutQuery` (src lines 363-371). -/
structure PreCheckoutQuery where
  Sender : Option User
  ID : String
  Currency : String
  Payload : String
  Total : Int
  OptionID : String
  Order : Order
deriving DecidableEq

/-! ## Payload types referenced but not defined in `src/main.go`

Modelled from the spec: section 1 places "the wire-level JSON schema of
every individual event payload" out of scope as inert records, and the
source file references the following types without defining them (their
definitions live elsewhere in the repository).  No claim inspects their
contents, so each is an empty structure. -/

/-- Modelled from the spec: inert payload record `Audio` (referenced at src line 128). -/
structure Audio deriving DecidableEq

/-- Modelled from the spec: inert payload record `Document` (referenced at src line 131). -/
structure Document deriving DecidableEq

/-- Modelled from the spec: inert payload record `Photo` (referenced at src line 134). -/
structure Photo deriving DecidableEq

/-- Modelled from the spec: inert payload record `Sticker` (referenced at src line 137). -/
structure Sticker deriving DecidableEq

/-- Modelled from the spec: inert payload record `Voice` (referenced at src line 140). -/
structure Voice deriving DecidableEq

/-- Modelled from the spec: inert payload record `VideoNote` (referenced at src line 143). -/
structure VideoNote deriving DecidableEq

/-- Modelled from the spec: inert payload record `Video` (referenced at src line 146). -/
structure Video deriving DecidableEq

/-- Modelled from the spec: inert payload record `Animation` (referenced at src line 149). -/
structure Animation deriving DecidableEq

/-- Modelled from the spec: inert payload record `Contact` (referenced at src line 152). -/
structure Contact deriving DecidableEq

/-- Modelled from the spec: inert payload record `Venue` (referenced at src line 158). -/
structure Venue deriving DecidableEq

/-- Modelled from the spec: inert payload record `Dice` (referenced at src line 164). -/
structure Dice deriving DecidableEq

/-- Modelled from the spec: inert payload record `Invoice` (referenced at src line 254). -/
structure Invoice deriving DecidableEq

/-- Modelled from the spec: inert payload record `Payment` (referenced at src line 257). -/
structure Payment deriving DecidableEq

/-- Modelled from the spec: inert payload record `InlineKeyboardMarkup` (referenced at src line 263). -/
structure InlineKeyboardMarkup deriving DecidableEq

/-- Modelled from the spec: inert payload record `VoiceChatScheduled` (referenced at src line 265). -/
structure VoiceChatScheduled deriving DecidableEq

/-- Modelled from the spec: inert payload record `VoiceChatStarted` (referenced at src line 268). -/
structure VoiceChatStarted deriving DecidableEq

/-- Modelled from the spec: inert payload record `VoiceChatEnded` (referenced at src line 271). -/
structure VoiceChatEnded deriving DecidableEq

/-- Modelled from the spec: inert payload record `VoiceChatParticipantsInvited` (referenced at src line 274). -/
structure VoiceChatParticipantsInvited deriving DecidableEq

/-- Modelled from the spec: inert payload record `ProximityAlertTriggered` (referenced at src line 278). -/
structure ProximityAlertTriggered deriving DecidableEq

/-- Modelled from the spec: inert payload record `MessageAutoDeleteTimerChanged` (referenced at src line 281). -/
structure MessageAutoDeleteTimerChanged deriving DecidableEq

/-- Modelled from the spec: inert payload record `ChatMember` (referenced at src lines 460, 463). -/
structure ChatMember deriving DecidableEq

/-- Modelled from the spec: inert payload record `ChatInviteLink` (referenced at src line 467). -/
structure ChatInviteLink deriving DecidableEq

/-! ## The mutually recursive `Message` / `Chat` knot

Go `Message` (src lines 50-282) holds `*Chat` fields and Go `Chat`
(src lines 418-447) holds a `*Message` field (`PinnedMessage`), so the two
become a mutual inductive.  Constructor arguments are the Go fields in
source order; an argument is left unnamed (with its Go field name in a
comment) exactly when naming it would shadow a type used by a later
argument. -/

mutual

/-- Translation of `Message` (src lines 50-282), one constructor argument
per Go field in source order. -/
inductive Message : Type where
  | mk :
    (ID : Int) →
    (InlineID : String) →
    (Sender : Option User) →
    (Unixtime : Int) →
    Option Chat →                 -- Chat
    Option Chat →                 -- SenderChat
    (OriginalSender : Option User) →
    Option Chat →                 -- OriginalChat
    (OriginalMessageID : Int) →
    (OriginalSignature : String) →
    (OriginalSenderName : String) →
    (OriginalUnixtime : Int) →
    (ReplyTo : Option Message) →
    (Via : Option User) →
    (LastEdit : Int) →
    (AlbumID : String) →
    (Signature : String) →
    (Text : String) →
    (Payload : String) →
    (Entities : List MessageEntity) →
    (Caption : String) →
    (CaptionEntities : List MessageEntity) →
    (Audio : Option Audio) →
    (Document : Option Document) →
    Option Photo →                -- Photo
    (Sticker : Option Sticker) →
    (Voice : Option Voice) →
    (VideoNote : Option VideoNote) →
    (Video : Option Video) →
    (Animation : Option Animation) →
    (Contact : Option Contact) →
    (Location : Option Location) →
    (Venue : Option Venue) →
    (Poll : Option Poll) →
    (Dice : Option Dice) →
    (UserJoined : Option User) →
    (UserLeft : Option User) →
    (NewGroupTitle : String) →
    (NewGroupPhoto : Option Photo) →
    (UsersJoined : List User) →
    (GroupPhotoDeleted : Bool) →
    (GroupCreated : Bool) →
    (SuperGroupCreated : Bool) →
    (ChannelCreated : Bool) →
    (MigrateTo : Int) →
    (MigrateFrom : Int) →
    (PinnedMessage : Option Message) →
    (Invoice : Option Invoice) →
    (Payment : Option Payment) →
    (ConnectedWebsite : String) →
    (ReplyMarkup : InlineKeyboardMarkup) →
    (VoiceChatSchedule : Option VoiceChatScheduled) →
    Option VoiceChatStarted →     -- VoiceChatStarted
    Option VoiceChatEnded →       -- VoiceChatEnded
    Option VoiceChatParticipantsInvited →  -- VoiceChatParticipantsInvited
    (ProximityAlert : Option ProximityAlertTriggered) →
    (AutoDeleteTimer : Option MessageAutoDeleteTimerChanged) →
    Message

/-- Translation of `Chat` (src lines 418-447), one constructor argument per
Go field in source order (`Type` is a Lean keyword, hence `Type'`). -/
inductive Chat : Type where
  | mk :
    (ID : Int) →
    (Type' : ChatType) →
    (Title : String) →
    (FirstName : String) →
    (LastName : String) →
    (Username : String) →
    (Still : Bool) →
    (Bio : String) →
    (Photo : Option ChatPhoto) →
    (Description : String) →
    (InviteLink : String) →
    (PinnedMessage : Option Message) →
    (Permissions : Option Rights) →
    (SlowMode : Int) →
    (StickerSet : String) →
    (CanSetStickerSet : Bool) →
    (LinkedChatID : Int) →
    (ChatLocation : Option ChatLocation) →
    Chat

end

/-- Translation of `Callback` (src lines 284-301). -/
structure Callback where
  ID : String
  Sender : Option User
  Message : Option Message
  MessageID : String
  Data : String

/-- Translation of `ChatMemberUpdated` (src lines 449-468). -/
structure ChatMemberUpdated where
  Chat : Chat
  From : User
  Unixtime : Int
  OldChatMember : Option ChatMember
  NewChatMember : Option ChatMember
  InviteLink : Option ChatInviteLink

/-- Alias for `Message` used inside `Update`, where the field named
`Message` would otherwise shadow the type for the later fields. -/
abbrev TMessage := Message

/-- Translation of `Update` (src lines 470-486): thirteen optional variant
payload fields after the `update_id`. -/
structure Update where
  ID : Int
  Message : Option TMessage
  EditedMessage : Option TMessage
  ChannelPost : Option TMessage
  EditedChannelPost : Option TMessage
  Callback : Option Callback
  Query : Option Query
  ChosenInlineResult : Option ChosenInlineResult
  ShippingQuery : Option ShippingQuery
  PreCheckoutQuery : Option PreCheckoutQuery
  Poll : Option Poll
  PollAnswer : Option PollAnswer
  MyChatMember : Option ChatMemberUpdated
  ChatMember : Option ChatMemberUpdated

/-- Number of populated (non-nil) variant payload fields of an `Update`,
over the thirteen variant fields declared at src lines 473-485. -/
def populatedCount (u : Update) : Nat :=
  (if u.Message.isSome then 1 else 0) +
  (if u.EditedMessage.isSome then 1 else 0) +
  (if u.ChannelPost.isSome then 1 else 0) +
  (if u.EditedChannelPost.isSome then 1 else 0) +
  (if u.Callback.isSome then 1 else 0) +
  (if u.Query.isSome then 1 else 0) +
  (if u.ChosenInlineResult.isSome then 1 else 0) +
  (if u.ShippingQuery.isSome then 1 else 0) +
  (if u.PreCheckoutQuery.isSome then 1 else 0) +
  (if u.Poll.isSome then 1 else 0) +
  (if u.PollAnswer.isSome then 1 else 0) +
  (if u.MyChatMember.isSome then 1 else 0) +
  (if u.ChatMember.isSome then 1 else 0)

/-! ## Entity kind constants (src lines 499-515) -/

/-- Go constant `EntityMention` (src line 500). -/
def EntityMention : EntityType := "mention"

/-- Go constant `EntityTMention` (src line 501). -/
def EntityTMention : EntityType := "text_mention"

/-- Go constant `EntityHashtag` (src line 502). -/
def EntityHashtag : EntityType := "hashtag"

/-- Go constant `EntityCashtag` (src line 503). -/
def EntityCashtag : EntityType := "cashtag"

/-- Go constant `EntityCommand` (src line 504). -/
def EntityCommand : EntityType := "bot_command"

/-- Go constant `EntityURL` (src line 505). -/
def EntityURL : EntityType := "url"

/-- Go constant `EntityEmail` (src line 506). -/
def EntityEmail : EntityType := "email"

/-- Go constant `EntityPhone` (src line 507). -/
def EntityPhone : EntityType := "phone_number"

/-- Go constant `EntityBold` (src line 508). -/
def EntityBold : EntityType := "bold"

/-- Go constant `EntityItalic` (src line 509). -/
def EntityItalic : EntityType := "italic"

/-- Go constant `EntityUnderline` (src line 510). -/
def EntityUnderline : EntityType := "underline"

/-- Go constant `EntityStrikethrough` (src line 511). -/
def EntityStrikethrough : EntityType := "strikethrough"

/-- Go constant `EntityCode` (src line 512). -/
def EntityCode : EntityType := "code"

/-- Go constant `EntityCodeBlock` (src line 513). -/
def EntityCodeBlock : EntityType := "pre"

/-- Go constant `EntityTextLink` (src line 514). -/
def EntityTextLink : EntityType := "text_link"

/-! ## The `File` reference and the `GetFile` operation -/

/-- Translation of `File` (src lines 565-582).  The `io.Reader` field
`FileReader` is a nil-able handle to a byte stream, modelled as
`Option Nat`. -/
structure File where
  FileID : String
  UniqueID : String
  FileSize : Int
  FilePath : String
  FileLocal : String
  FileURL : String
  FileReader : Option Nat
deriving DecidableEq

/-- Model of a `net/http` response as `GetFile` uses it: the numeric
status code (`resp.StatusCode`), the status text (`resp.Status`), and the
response body (`resp.Body`, an abstract stream handle). -/
structure HttpResponse where
  statusCode : Nat
  status : String
  body : Nat
deriving DecidableEq

/-- Modelled from the spec: `wrapError` is called by `GetFile` (src lines
595, 599) but not defined in the source file; per section 4.1 the transport
maps I/O failures to a uniform error shape.  Modelled as tagging the
underlying error message. -/
def wrapError (e : String) : String := "telebot: " ++ e

/-- Translation of the `Bot` owner (src lines 556-563) restricted to what
`GetFile` reads: `Me`, `Token` and `URL` are the exported fields; the
`Updates` channel and the pluggable `Poller` belong to the polling flow,
modelled separately below by the trace semantics.  The unexported HTTP
client and the `FileByID` transport call (both invoked by `GetFile` but not
defined in the source file) are modelled as oracle functions:
`fileByID id` is the metadata call, returning the file descriptor or a
transport error; `newRequestErr url` is `some e` exactly when
`http.NewRequest` fails on `url` with error `e`; `clientDo url` executes
the request built for `url` and returns the response or a network error. -/
structure Bot where
  Me : Option User
  Token : String
  URL : String
  fileByID : String → Except String File
  newRequestErr : String → Option String
  clientDo : String → Except String HttpResponse

/-- Result of one `GetFile` run together with the effects it performed:
`stream`/`error` are the two Go return values (`io.ReadCloser` handle and
error), `file` is the state of the passed-in `*File` after the call,
`metadataCalls` counts the `FileByID` calls issued, `requestedURLs` lists
the URLs executed through `client.Do`, and `closedBodies` lists the
response bodies closed during the run. -/
structure GetFileResult where
  stream : Option Nat
  error : Option String
  file : File
  metadataCalls : Nat
  requestedURLs : List String
  closedBodies : List Nat
deriving DecidableEq

/-- URL composition of src line 590:
`b.URL + "/file/bot" + b.Token + "/" + f.FilePath`. -/
def getFileURL (b : Bot) (path : String) : String :=
  b.URL ++ "/file/bot" ++ b.Token ++ "/" ++ path

/-- Translation of `Bot.GetFile` (src lines 584-609), step for step:
call `FileByID(file.FileID)` and return its error on failure; compose the
binary-endpoint URL from the fetched descriptor's `FilePath`; store that
path into `file.FilePath` ("saving file path", src line 591); build and
execute the GET request, returning a wrapped error if either step fails;
on a status other than 200 close the response body and return an error
carrying the observed status; otherwise return the body. -/
def getFile (b : Bot) (file : File) : GetFileResult :=
  match b.fileByID file.FileID with
  | .error e => ⟨none, some e, file, 1, [], []⟩
  | .ok f =>
    let url := getFileURL b f.FilePath
    let file' := { file with FilePath := f.FilePath }
    match b.newRequestErr url with
    | some e => ⟨none, some (wrapError e), file', 1, [], []⟩
    | none =>
      match b.clientDo url with
      | .error e => ⟨none, some (wrapError e), file', 1, [url], []⟩
      | .ok resp =>
        if resp.statusCode ≠ 200 then
          ⟨none, some ("telebot: expected status 200 but got " ++ resp.status), file', 1,
            [url], [resp.body]⟩
        else
          ⟨some resp.body, none, file', 1, [url], []⟩

/-! ## FileResolver branches for the non-remote-id reference forms

Modelled from the spec: the resolver's `local-path`, `remote-url` and
`open-stream` branches (section 4.2) are not in the source file — only the
`File` fields `FileLocal`, `FileURL` and `FileReader` declaring those
reference forms are (src lines 573-580); `GetFile` above is the remote-id
branch. -/

/-- Modelled from the spec: the environment the resolver's non-remote-id
branches run against — `fsOpen p` opens a local path, yielding a stream
handle or a filesystem error; `httpGet u` issues a plain GET. -/
structure ResolverEnv where
  fsOpen : String → Except String Nat
  httpGet : String → Except String HttpResponse

/-- Modelled from the spec: the three reference forms of section 4.2 that
the source file only declares (the remote-id form is `getFile` above). -/
inductive FileSource where
  | localPath (p : String)
  | remoteURL (u : String)
  | openStream (s : Nat)
deriving DecidableEq

/-- Result of one resolver run: the produced stream or error, plus the
streams the resolver closed (for the ownership clause of section 4.2). -/
structure ResolveResult where
  stream : Option Nat
  error : Option String
  closedStreams : List Nat
deriving DecidableEq

/-- Modelled from the spec, section 4.2: `local-path: open directly; fail
with a filesystem error if absent or unreadable. remote-url: issue a plain
GET; fail with a transport error on non-OK status. open-stream: pass
through unchanged; resolver does not take ownership.` -/
def resolve (env : ResolverEnv) : FileSource → ResolveResult
  | .localPath p =>
    match env.fsOpen p with
    | .error e => ⟨none, some e, []⟩
    | .ok s => ⟨some s, none, []⟩
  | .remoteURL u =>
    match env.httpGet u with
    | .error e => ⟨none, some e, []⟩
    | .ok resp =>
      if resp.statusCode ≠ 200 then ⟨none, some ("transport: non-OK status " ++ resp.status), []⟩
      else ⟨some resp.body, none, []⟩
  | .openStream s => ⟨some s, none, []⟩

/-! ## Command extraction for text messages

Modelled from the spec: the source file only declares the `Message.Payload`
field (src lines 110-114, "Ex: `/command <payload>` or
`/command@botname <payload>`"); the extraction itself is specified in
section 4.4: if the text begins with the command prefix `/`, the
discriminator is the token up to the first whitespace or the `@` delimiter,
an `@botname` suffix is ignored, and everything after is the payload.
Strings are processed as their character lists so that every step is
structural. -/

/-- Modelled from the spec: the command token — characters up to the first
space or `@` delimiter. -/
def tokenChars : List Char → List Char
  | [] => []
  | c :: cs => if c = ' ' || c = '@' then [] else c :: tokenChars cs

/-- Modelled from the spec: the remainder of the text starting at the first
space or `@` delimiter (empty when the token runs to the end). -/
def afterToken : List Char → List Char
  | [] => []
  | c :: cs => if c = ' ' || c = '@' then c :: cs else afterToken cs

/-- Modelled from the spec: drop an `@botname` suffix — when the remainder
starts with `@`, skip up to the next space. -/
def dropBotname : List Char → List Char
  | [] => []
  | c :: cs => if c = '@' then (c :: cs).dropWhile (fun x => x != ' ') else c :: cs

/-- Modelled from the spec: drop the single space separating the command
token from its payload, when present. -/
def dropOneSpace : List Char → List Char
  | ' ' :: cs => cs
  | cs => cs

/-- Modelled from the spec: extract `(discriminator, payload)` from a text
message beginning with the `/` command prefix; `none` for texts that do
not begin with the prefix. -/
def commandParts (text : String) : Option (String × String) :=
  match text.data with
  | '/' :: rest =>
    some (String.mk (tokenChars rest), String.mk (dropOneSpace (dropBotname (afterToken rest))))
  | _ => none

/-! ## The long-poll `Poller` loop

Modelled from the spec: the source file declares only the `Poller`
interface (src lines 546-554); the concrete long-poll strategy is specified
in section 4.3.  Updates are represented by their `sequence_id` (a `Nat`; a
batch is the list of ids of the fetched updates in the order they arrive),
and a run over a given sequence of fetched batches is rendered as the trace
of the observable events of the loop: issuing a fetch at an offset, pushing
an update onto the update channel, and advancing the cursor. -/

/-- Modelled from the spec: the observable events of one poller run. -/
inductive PollEvent where
  | fetch (offset : Nat)
  | push (id : Nat)
  | setCursor (c : Nat)
deriving DecidableEq

/-- Greatest sequence id in a batch (`max(sequence_id in batch)`,
section 4.3 step 2). -/
def maxId (b : List Nat) : Nat := b.foldl max 0

/-- Cursor after processing one batch: unchanged for an empty batch
(section 4.3 step 3), `max(sequence_id in batch) + 1` otherwise
(section 4.3 step 2). -/
def nextCursor (c : Nat) (b : List Nat) : Nat :=
  if b.isEmpty then c else maxId b + 1

/-- Modelled from the spec, section 4.3: the event trace of the loop run
against a given sequence of fetched batches.  Each iteration issues a fetch
at the current cursor; a non-empty batch is pushed in full onto the channel
and then the cursor is set to `maxId b + 1`; an empty batch loops
immediately with the cursor unchanged. -/
def pollTrace : Nat → List (List Nat) → List PollEvent
  | _, [] => []
  | c, b :: rest =>
    if b.isEmpty then
      PollEvent.fetch c :: pollTrace c rest
    else
      PollEvent.fetch c ::
        (b.map PollEvent.push ++ (PollEvent.setCursor (maxId b + 1) :: pollTrace (maxId b + 1) rest))

/-- Sequence ids pushed onto the update channel during a trace, in order. -/
def pushedIds (tr : List PollEvent) : List Nat :=
  tr.filterMap fun e =>
    match e with
    | PollEvent.push id => some id
    | _ => none

/-- Transport contract of the long-poll fetch: a batch fetched at offset
`c` contains only updates with `sequence_id ≥ c` (the offset parameter
acknowledges everything below it, sections 3 and 4.3 step 1), threaded
through the cursors the loop actually uses. -/
def serverOk : Nat → List (List Nat) → Bool
  | _, [] => true
  | c, b :: rest => b.all (fun id => c ≤ id) && serverOk (nextCursor c b) rest

/-- Strictly ascending sequence ids within one batch (section 3: ids are
unique and strictly increasing; section 4.3 step 2: ascending order). -/
def ascChain : List Nat → Bool
  | [] => true
  | [_] => true
  | x :: y :: rest => decide (x < y) && ascChain (y :: rest)

mutual

/-- Cursor-discipline checker, independent of `pollTrace`'s construction: a
well-formed trace is empty or starts with a fetch at exactly the current
cursor, followed by a well-formed iteration body. -/
def disciplineFrom (cursor : Nat) : List PollEvent → Bool
  | [] => true
  | PollEvent.fetch c :: rest => c == cursor && disciplineBody cursor [] rest
  | _ => false

/-- Iteration-body checker: `pushed` accumulates the ids pushed since the
last fetch.  A `setCursor c` may occur only after at least one push, must
satisfy `c = max(pushed ids) + 1`, and must be followed (before any further
push) by a fetch at the new cursor `c`; a fetch without a preceding
`setCursor` is allowed only when nothing was pushed since the last fetch
(empty batch) and must reuse the unchanged cursor. -/
def disciplineBody (cursor : Nat) (pushed : List Nat) : List PollEvent → Bool
  | [] => true
  | PollEvent.push id :: rest => disciplineBody cursor (pushed ++ [id]) rest
  | PollEvent.setCursor c :: rest =>
    !pushed.isEmpty && c == maxId pushed + 1 && disciplineFrom c rest
  | PollEvent.fetch c :: rest =>
    pushed.isEmpty && c == cursor && disciplineBody cursor [] rest

end

/-! ## Concrete example inputs used by witnesses and counterexamples -/

/-- Remote-id reference with no cached path. -/
def sampleFile : File := ⟨"fid-1", "uid-1", 0, "", "", "", none⟩

/-- Descriptor the fake metadata call returns for `sampleFile`. -/
def sampleMeta : File := ⟨"fid-1", "uid-1", 0, "photos/file_1.jpg", "", "", none⟩

/-- Fake bot whose metadata call succeeds, whose request construction never
fails, and whose binary endpoint answers `200 OK` with body handle 7. -/
def okBot : Bot :=
  ⟨none, "TOKEN", "https://api.example.org",
    fun _ => .ok sampleMeta, fun _ => none, fun _ => .ok ⟨200, "200 OK", 7⟩⟩

/-- Fake bot whose metadata call fails. -/
def metaFailBot : Bot :=
  ⟨none, "TOKEN", "https://api.example.org",
    fun _ => .error "telegram: wrong file_id", fun _ => none, fun _ => .ok ⟨200, "200 OK", 7⟩⟩

/-- Fake bot whose HTTP request construction fails. -/
def reqFailBot : Bot :=
  ⟨none, "TOKEN", "https://api.example.org",
    fun _ => .ok sampleMeta, fun _ => some "parse error", fun _ => .ok ⟨200, "200 OK", 7⟩⟩

/-- Fake bot whose HTTP request execution fails at the network level. -/
def doFailBot : Bot :=
  ⟨none, "TOKEN", "https://api.example.org",
    fun _ => .ok sampleMeta, fun _ => none, fun _ => .error "connection refused"⟩

/-- Fake bot whose binary endpoint answers `404 Not Found` with body
handle 9. -/
def notFoundBot : Bot :=
  ⟨none, "TOKEN", "https://api.example.org",
    fun _ => .ok sampleMeta, fun _ => none, fun _ => .ok ⟨404, "404 Not Found", 9⟩⟩

/-- Fake resolver environment: one readable local path (stream 3), one URL
answering `200 OK` (body 11), one URL answering `404 Not Found` (body 12),
everything else failing at the network level. -/
def sampleEnv : ResolverEnv :=
  ⟨fun p =>
    if p = "/tmp/a.bin" then .ok 3
    else .error ("open " ++ p ++ ": no such file or directory"),
   fun u =>
    if u = "https://files.example.org/a.bin" then .ok ⟨200, "200 OK", 11⟩
    else if u = "https://files.example.org/missing.bin" then .ok ⟨404, "404 Not Found", 12⟩
    else .error "dial tcp: connection refused"⟩

/-- Update with `update_id = 1` and every variant payload field nil. -/
def emptyUpdate : Update :=
  ⟨1, none, none, none, none, none, none, none, none, none, none, none, none, none⟩

/-- Update with `update_id = 2` and exactly the `Callback` variant
populated. -/
def callbackUpdate : Update :=
  ⟨2, none, none, none, none, some ⟨"cbid", none, none, "", "data"⟩,
    none, none, none, none, none, none, none, none⟩

/-! ## Helper lemmas about `maxId`, `pushedIds` and the poller trace -/

theorem foldl_max_init_le (l : List Nat) : ∀ a : Nat, a ≤ l.foldl max a := by
  induction l with
  | nil => intro a; simp
  | cons x xs ih =>
    intro a
    exact le_trans (le_max_left a x) (ih (max a x))

theorem le_foldl_max_of_mem {l : List Nat} {x : Nat} (hx : x ∈ l) :
    ∀ a : Nat, x ≤ l.foldl max a := by
  induction l with
  | nil => cases hx
  | cons y ys ih =>
    intro a
    rcases List.mem_cons.mp hx with h | h
    · subst h
      exact le_trans (le_max_right a x) (foldl_max_init_le ys (max a x))
    · exact ih h (max a y)

theorem le_maxId {b : List Nat} {x : Nat} (hx : x ∈ b) : x ≤ maxId b :=
  le_foldl_max_of_mem hx 0

theorem chain'_of_ascChain : ∀ {l : List Nat}, ascChain l = true → List.Chain' (· < ·) l
  | [], _ => List.chain'_nil
  | [x], _ => List.chain'_singleton x
  | x :: y :: rest, h => by
    rw [ascChain, Bool.and_eq_true, decide_eq_true_eq] at h
    exact List.Chain'.cons h.1 (chain'_of_ascChain h.2)

theorem pushedIds_append (t1 t2 : List PollEvent) :
    pushedIds (t1 ++ t2) = pushedIds t1 ++ pushedIds t2 := by
  simp [pushedIds, List.filterMap_append]

theorem pushedIds_map_push (b : List Nat) :
    pushedIds (b.map PollEvent.push) = b := by
  induction b with
  | nil => rfl
  | cons x xs ih =>
    simpa [pushedIds, List.filterMap_cons] using ih

theorem pushedIds_fetch (c : Nat) (tr : List PollEvent) :
    pushedIds (PollEvent.fetch c :: tr) = pushedIds tr := rfl

theorem pushedIds_setCursor (c : Nat) (tr : List PollEvent) :
    pushedIds (PollEvent.setCursor c :: tr) = pushedIds tr := rfl

theorem pushedIds_pollTrace_empty (c : Nat) (rest : List (List Nat)) :
    pushedIds (pollTrace c ([] :: rest)) = pushedIds (pollTrace c rest) := by
  simp [pollTrace, pushedIds_fetch]

theorem pushedIds_pollTrace_nonempty (c : Nat) {b : List Nat} (hbe : b.isEmpty = false)
    (rest : List (List Nat)) :
    pushedIds (pollTrace c (b :: rest)) = b ++ pushedIds (pollTrace (maxId b + 1) rest) := by
  simp [pollTrace, hbe, pushedIds_fetch, pushedIds_append, pushedIds_map_push,
    pushedIds_setCursor]

theorem serverOk_cons {c : Nat} {b : List Nat} {rest : List (List Nat)}
    (h : serverOk c (b :: rest) = true) :
    (∀ id ∈ b, c ≤ id) ∧ serverOk (nextCursor c b) rest = true := by
  simpa [serverOk, Bool.and_eq_true, List.all_eq_true, decide_eq_true_eq] using h

theorem pushed_lower_bound (bs : List (List Nat)) :
    ∀ c : Nat, serverOk c bs = true →
      ∀ id ∈ pushedIds (pollTrace c bs), c ≤ id := by
  induction bs with
  | nil => intro c _ id hid; simp [pollTrace, pushedIds] at hid
  | cons b rest ih =>
    intro c hs id hid
    obtain ⟨hb, hrest⟩ := serverOk_cons hs
    cases hbe : b.isEmpty with
    | true =>
      have hbnil : b = [] := List.isEmpty_iff.mp hbe
      subst hbnil
      rw [pushedIds_pollTrace_empty] at hid
      have : nextCursor c [] = c := by simp [nextCursor]
      rw [this] at hrest
      exact ih c hrest id hid
    | false =>
      rw [pushedIds_pollTrace_nonempty c hbe] at hid
      have hnext : nextCursor c b = maxId b + 1 := by simp [nextCursor, hbe]
      rw [hnext] at hrest
      rcases List.mem_append.mp hid with h | h
      · exact hb id h
      · have h1 := ih (maxId b + 1) hrest id h
        obtain ⟨x, hx⟩ := List.isEmpty_eq_false_iff_exists_mem.mp hbe
        have hcx := hb x hx
        have hxm := le_maxId hx
        omega

theorem pushed_sorted (bs : List (List Nat)) :
    ∀ c : Nat, serverOk c bs = true → (∀ b ∈ bs, List.Chain' (· < ·) b) →
      List.Pairwise (· < ·) (pushedIds (pollTrace c bs)) := by
  induction bs with
  | nil => intro c _ _; simp [pollTrace, pushedIds]
  | cons b rest ih =>
    intro c hs hasc
    obtain ⟨hb, hrest⟩ := serverOk_cons hs
    cases hbe : b.isEmpty with
    | true =>
      have hbnil : b = [] := List.isEmpty_iff.mp hbe
      subst hbnil
      rw [pushedIds_pollTrace_empty]
      have : nextCursor c [] = c := by simp [nextCursor]
      rw [this] at hrest
      exact ih c hrest fun b hbm => hasc b (List.mem_cons_of_mem _ hbm)
    | false =>
      rw [pushedIds_pollTrace_nonempty c hbe]
      have hnext : nextCursor c b = maxId b + 1 := by simp [nextCursor, hbe]
      rw [hnext] at hrest
      refine List.pairwise_append.mpr ⟨?_, ?_, ?_⟩
      · exact List.chain'_iff_pairwise.mp (hasc b (List.mem_cons_self b rest))
      · exact ih (maxId b + 1) hrest fun b' hbm => hasc b' (List.mem_cons_of_mem _ hbm)
      · intro x hx y hy
        have h1 := pushed_lower_bound rest (maxId b + 1) hrest y hy
        have h2 := le_maxId hx
        omega

theorem disciplineBody_of_from (c : Nat) (tr : List PollEvent)
    (h : disciplineFrom c tr = true) : disciplineBody c [] tr = true := by
  cases tr with
  | nil => rfl
  | cons e rest =>
    cases e with
    | fetch c' => simpa [disciplineFrom, disciplineBody] using h
    | push id => simp [disciplineFrom] at h
    | setCursor c' => simp [disciplineFrom] at h

theorem disciplineBody_pushes (c : Nat) (b : List Nat) :
    ∀ (acc : List Nat) (tr : List PollEvent),
      disciplineBody c acc (b.map PollEvent.push ++ tr) = disciplineBody c (acc ++ b) tr := by
  induction b with
  | nil => intro acc tr; simp
  | cons x xs ih =>
    intro acc tr
    simp only [List.map_cons, List.cons_append, disciplineBody, List.append_eq]
    rw [ih (acc ++ [x]) tr]
    simp

theorem discipline_pollTrace (bs : List (List Nat)) :
    ∀ c : Nat, disciplineFrom c (pollTrace c bs) = true := by
  induction bs with
  | nil => intro c; rfl
  | cons b rest ih =>
    intro c
    cases hbe : b.isEmpty with
    | true =>
      simp only [pollTrace, hbe, if_true]
      simp only [disciplineFrom, beq_self_eq_true, Bool.true_and]
      exact disciplineBody_of_from c _ (ih c)
    | false =>
      simp only [pollTrace, hbe, Bool.false_eq_true, if_false]
      simp only [disciplineFrom, beq_self_eq_true, Bool.true_and]
      rw [disciplineBody_pushes c b [] _]
      simp only [List.nil_append, disciplineBody, hbe, Bool.not_false, beq_self_eq_true,
        Bool.true_and]
      exact ih (maxId b + 1)

/-! ## Claim theorems -/

/-- C1: for every sequence of fetched batches (under the long-poll
transport contract `serverOk` — a batch fetched at offset `c` holds only
ids at least `c` — with strictly ascending ids inside each batch), the ids
pushed to the dispatch channel are pairwise distinct, so no update — in
particular none with `sequence_id` below the cursor at the time of its
fetch — is ever pushed twice; and the trace satisfies the cursor
discipline: the cursor is set to `max(sequence_id in batch) + 1` only
after the full batch has been pushed and before the next fetch, which is
issued at exactly the advanced cursor. -/
theorem poller_at_most_once (c0 : Nat) (batches : List (List Nat))
    (hserver : serverOk c0 batches = true)
    (hasc : batches.all ascChain = true) :
    (pushedIds (pollTrace c0 batches)).Nodup ∧
    disciplineFrom c0 (pollTrace c0 batches) = true := by
  refine ⟨?_, discipline_pollTrace batches c0⟩
  have hasc' : ∀ b ∈ batches, List.Chain' (· < ·) b := fun b hb =>
    chain'_of_ascChain (List.all_eq_true.mp hasc b hb)
  exact (pushed_sorted batches c0 hserver hasc').imp fun h => Nat.ne_of_lt h

/-- Witness for C1 at the concrete run `cursor 0`, batches
`[[1, 2], [], [5]]`. -/
theorem poller_at_most_once_witness :
    serverOk 0 [[1, 2], [], [5]] = true ∧
    [[1, 2], [], [5]].all ascChain = true ∧
    ((pushedIds (pollTrace 0 [[1, 2], [], [5]])).Nodup ∧
      disciplineFrom 0 (pollTrace 0 [[1, 2], [], [5]]) = true) :=
  ⟨by decide, by decide, poller_at_most_once 0 [[1, 2], [], [5]] (by decide) (by decide)⟩

/-- C2 counterexample: after a first resolution has cached the server path
on the reference object, a second resolution of the same reference still
issues a metadata call — the two resolutions together issue two metadata
calls, not exactly one. -/
theorem getFile_single_metadata_counterexample :
    (getFile okBot sampleFile).file.FilePath = "photos/file_1.jpg" ∧
    (getFile okBot sampleFile).metadataCalls +
      (getFile okBot ((getFile okBot sampleFile).file)).metadataCalls ≠ 1 := by
  decide

/-- C2 (amended): every `GetFile` resolution issues exactly one metadata
call, unconditionally; on success the server-relative path is stored on the
reference object, but the presence of the cached path is never consulted,
so resolving the same reference twice issues two metadata calls. -/
theorem getFile_always_issues_metadata (b : Bot) (file : File) :
    (getFile b file).metadataCalls = 1 ∧
    ∀ f, b.fileByID file.FileID = .ok f → (getFile b file).file.FilePath = f.FilePath := by
  cases hm : b.fileByID file.FileID with
  | error e => simp [getFile, hm]
  | ok f =>
    cases hr : b.newRequestErr (getFileURL b f.FilePath) with
    | some e => simp [getFile, hm, hr]
    | none =>
      cases hd : b.clientDo (getFileURL b f.FilePath) with
      | error e => simp [getFile, hm, hr, hd]
      | ok resp =>
        by_cases hs : resp.statusCode = 200 <;> simp [getFile, hm, hr, hd, hs]

/-- Witness for the amended C2 at the fake bot `okBot`. -/
theorem getFile_always_issues_metadata_witness :
    (getFile okBot sampleFile).metadataCalls = 1 ∧
    (getFile okBot sampleFile).file.FilePath = sampleMeta.FilePath :=
  ⟨(getFile_always_issues_metadata okBot sampleFile).1,
   (getFile_always_issues_metadata okBot sampleFile).2 sampleMeta rfl⟩

/-- C3 counterexample: the binary fetch is not issued against
`base/bot{token}/{p}` — at the fake bot `okBot` the URL actually requested
differs from that composition (it contains the `/file` segment). -/
theorem getFile_url_counterexample :
    (getFile okBot sampleFile).requestedURLs ≠
      [okBot.URL ++ "/bot" ++ okBot.Token ++ "/" ++ sampleMeta.FilePath] := by
  decide

/-- C3 (amended): for every remote-id reference whose server path has been
obtained from the metadata call, the binary fetch is issued against the URL
composed as `base/file/bot{token}/{path}` (src line 590). -/
theorem getFile_fetch_url (b : Bot) (file : File) (f : File)
    (hmeta : b.fileByID file.FileID = .ok f)
    (hreq : b.newRequestErr (getFileURL b f.FilePath) = none) :
    (getFile b file).requestedURLs =
      [b.URL ++ "/file/bot" ++ b.Token ++ "/" ++ f.FilePath] := by
  cases hd : b.clientDo (getFileURL b f.FilePath) with
  | error e =>
    simp only [getFile, hmeta, hreq, hd]
    simp [getFileURL]
  | ok resp =>
    by_cases hs : resp.statusCode = 200 <;>
      (simp only [getFile, hmeta, hreq, hd]; simp [getFileURL, hs])

/-- Witness for the amended C3 at the fake bot `okBot`. -/
theorem getFile_fetch_url_witness :
    (getFile okBot sampleFile).requestedURLs =
      [okBot.URL ++ "/file/bot" ++ okBot.Token ++ "/" ++ sampleMeta.FilePath] :=
  getFile_fetch_url okBot sampleFile sampleMeta rfl rfl

/-- C4: the resolver branches for the three non-remote-id reference forms
(modelled from the spec, section 4.2): a local-path reference is opened
directly and fails with the filesystem error when the open fails; a
remote-url reference is fetched with a plain GET, failing with the
transport error on a network failure and with a transport error on a
non-OK status; an open-stream reference is passed through unchanged, with
nothing closed (the resolver does not take ownership). -/
theorem resolve_non_remote_forms (env : ResolverEnv) :
    (∀ p e, env.fsOpen p = .error e → resolve env (.localPath p) = ⟨none, some e, []⟩) ∧
    (∀ p s, env.fsOpen p = .ok s → resolve env (.localPath p) = ⟨some s, none, []⟩) ∧
    (∀ u e, env.httpGet u = .error e → resolve env (.remoteURL u) = ⟨none, some e, []⟩) ∧
    (∀ u resp, env.httpGet u = .ok resp → resp.statusCode ≠ 200 →
      (resolve env (.remoteURL u)).stream = none ∧
        (resolve env (.remoteURL u)).error.isSome = true ∧
        (resolve env (.remoteURL u)).closedStreams = []) ∧
    (∀ s, resolve env (.openStream s) = ⟨some s, none, []⟩) := by
  refine ⟨?_, ?_, ?_, ?_, ?_⟩
  · intro p e h; simp [resolve, h]
  · intro p s h; simp [resolve, h]
  · intro u e h; simp [resolve, h]
  · intro u resp h hs; simp [resolve, h, hs]
  · intro s; rfl

/-- Witness for C4 at the fake environment `sampleEnv`: a readable and a
missing local path, a network-failing URL, a `404` URL, and an open
stream. -/
theorem resolve_non_remote_forms_witness :
    resolve sampleEnv (.localPath "/tmp/missing.bin") =
      ⟨none, some "open /tmp/missing.bin: no such file or directory", []⟩ ∧
    resolve sampleEnv (.localPath "/tmp/a.bin") = ⟨some 3, none, []⟩ ∧
    resolve sampleEnv (.remoteURL "https://broken.example.org/x") =
      ⟨none, some "dial tcp: connection refused", []⟩ ∧
    ((resolve sampleEnv (.remoteURL "https://files.example.org/missing.bin")).stream = none ∧
      (resolve sampleEnv (.remoteURL "https://files.example.org/missing.bin")).error.isSome =
        true ∧
      (resolve sampleEnv
          (.remoteURL "https://files.example.org/missing.bin")).closedStreams = []) ∧
    resolve sampleEnv (.openStream 42) = ⟨some 42, none, []⟩ :=
  ⟨(resolve_non_remote_forms sampleEnv).1 "/tmp/missing.bin"
      "open /tmp/missing.bin: no such file or directory" rfl,
   (resolve_non_remote_forms sampleEnv).2.1 "/tmp/a.bin" 3 rfl,
   (resolve_non_remote_forms sampleEnv).2.2.1 "https://broken.example.org/x"
      "dial tcp: connection refused" rfl,
   (resolve_non_remote_forms sampleEnv).2.2.2.1 "https://files.example.org/missing.bin"
      ⟨404, "404 Not Found", 12⟩ rfl (by decide),
   (resolve_non_remote_forms sampleEnv).2.2.2.2 42⟩

/-- C5: every failure of `GetFile` is surfaced synchronously to its
caller — when the metadata call fails, when the HTTP request cannot be
constructed, when it cannot be executed, or when the binary endpoint
responds with a non-OK status, `GetFile` returns a nil stream together
with a non-nil error, and in the non-OK-status case the error carries the
observed status text. -/
theorem getFile_errors_surface (b : Bot) (file : File) :
    (∀ e, b.fileByID file.FileID = .error e →
      (getFile b file).stream = none ∧ (getFile b file).error.isSome = true) ∧
    (∀ f e, b.fileByID file.FileID = .ok f →
      b.newRequestErr (getFileURL b f.FilePath) = some e →
      (getFile b file).stream = none ∧ (getFile b file).error.isSome = true) ∧
    (∀ f e, b.fileByID file.FileID = .ok f →
      b.newRequestErr (getFileURL b f.FilePath) = none →
      b.clientDo (getFileURL b f.FilePath) = .error e →
      (getFile b file).stream = none ∧ (getFile b file).error.isSome = true) ∧
    (∀ f resp, b.fileByID file.FileID = .ok f →
      b.newRequestErr (getFileURL b f.FilePath) = none →
      b.clientDo (getFileURL b f.FilePath) = .ok resp →
      resp.statusCode ≠ 200 →
      (getFile b file).stream = none ∧
        (getFile b file).error =
          some ("telebot: expected status 200 but got " ++ resp.status)) := by
  refine ⟨?_, ?_, ?_, ?_⟩
  · intro e hm; simp [getFile, hm]
  · intro f e hm hr; simp [getFile, hm, hr]
  · intro f e hm hr hd; simp [getFile, hm, hr, hd]
  · intro f resp hm hr hd hs; simp [getFile, hm, hr, hd, hs]

/-- Witness for C5 at four fake bots, one per failure mode. -/
theorem getFile_errors_surface_witness :
    ((getFile metaFailBot sampleFile).stream = none ∧
      (getFile metaFailBot sampleFile).error.isSome = true) ∧
    ((getFile reqFailBot sampleFile).stream = none ∧
      (getFile reqFailBot sampleFile).error.isSome = true) ∧
    ((getFile doFailBot sampleFile).stream = none ∧
      (getFile doFailBot sampleFile).error.isSome = true) ∧
    ((getFile notFoundBot sampleFile).stream = none ∧
      (getFile notFoundBot sampleFile).error =
        some ("telebot: expected status 200 but got " ++ "404 Not Found")) :=
  ⟨(getFile_errors_surface metaFailBot sampleFile).1 "telegram: wrong file_id" rfl,
   (getFile_errors_surface reqFailBot sampleFile).2.1 sampleMeta "parse error" rfl rfl,
   (getFile_errors_surface doFailBot sampleFile).2.2.1 sampleMeta "connection refused"
      rfl rfl rfl,
   (getFile_errors_surface notFoundBot sampleFile).2.2.2 sampleMeta
      ⟨404, "404 Not Found", 9⟩ rfl rfl rfl (by decide)⟩

/-- C6: command extraction (modelled from the spec, section 4.4 and the
`Message.Payload` field, src lines 110-114): `"/start foo bar"` yields
discriminator `"start"` and payload `"foo bar"`, and `"/start@botname foo"`
yields discriminator `"start"` (the `@botname` suffix is ignored) with
payload `"foo"`. -/
theorem command_extraction_examples :
    commandParts "/start foo bar" = some ("start", "foo bar") ∧
    commandParts "/start@botname foo" = some ("start", "foo") := by
  constructor <;> rfl

/-- C7: `GetFile` mutates only the reference's cached path field — every
field of the `File` reference other than `FilePath` is returned unchanged
(and the bot state is read-only in the model: `getFile` only consumes
`b`). -/
theorem getFile_frame (b : Bot) (file : File) :
    (getFile b file).file.FileID = file.FileID ∧
    (getFile b file).file.UniqueID = file.UniqueID ∧
    (getFile b file).file.FileSize = file.FileSize ∧
    (getFile b file).file.FileLocal = file.FileLocal ∧
    (getFile b file).file.FileURL = file.FileURL ∧
    (getFile b file).file.FileReader = file.FileReader := by
  cases hm : b.fileByID file.FileID with
  | error e => simp [getFile, hm]
  | ok f =>
    cases hr : b.newRequestErr (getFileURL b f.FilePath) with
    | some e => simp [getFile, hm, hr]
    | none =>
      cases hd : b.clientDo (getFileURL b f.FilePath) with
      | error e => simp [getFile, hm, hr, hd]
      | ok resp =>
        by_cases hs : resp.statusCode = 200 <;> simp [getFile, hm, hr, hd, hs]

/-- C8 counterexample: the `Update` record does not enforce the
exactly-one-populated invariant — the update with `update_id = 1` and every
variant payload field nil has zero populated variants, not one. -/
theorem update_exactly_one_counterexample : populatedCount emptyUpdate ≠ 1 := by
  decide

/-- C8 (amended): exactly one populated variant per instance is expressible
but not an invariant the `Update` type enforces: there are `Update` values
with exactly one populated variant payload field and values with none. -/
theorem update_variant_count_not_invariant :
    (∃ u : Update, populatedCount u = 1) ∧ (∃ u : Update, populatedCount u = 0) :=
  ⟨⟨callbackUpdate, by decide⟩, ⟨emptyUpdate, by decide⟩⟩

/-- C9: whenever the binary endpoint responds with a status other than 200,
`GetFile` closes the response body before returning the error (src lines
603-606): the body appears among the closed bodies, the stream is nil and
the error non-nil. -/
theorem getFile_closes_body_on_bad_status (b : Bot) (file : File) (f : File)
    (resp : HttpResponse)
    (hmeta : b.fileByID file.FileID = .ok f)
    (hreq : b.newRequestErr (getFileURL b f.FilePath) = none)
    (hdo : b.clientDo (getFileURL b f.FilePath) = .ok resp)
    (hst : resp.statusCode ≠ 200) :
    (getFile b file).closedBodies = [resp.body] ∧
    (getFile b file).stream = none ∧ (getFile b file).error.isSome = true := by
  simp [getFile, hmeta, hreq, hdo, hst]

/-- Witness for C9 at the fake bot `notFoundBot`. -/
theorem getFile_closes_body_on_bad_status_witness :
    (getFile notFoundBot sampleFile).closedBodies = [9] ∧
    (getFile notFoundBot sampleFile).stream = none ∧
    (getFile notFoundBot sampleFile).error.isSome = true :=
  getFile_closes_body_on_bad_status notFoundBot sampleFile sampleMeta
    ⟨404, "404 Not Found", 9⟩ rfl rfl rfl (by decide)

/-- C10: if the metadata lookup fails, `GetFile` returns before touching
the `File` reference, leaving it completely unchanged; if it succeeds,
`file.FilePath` is overwritten with the fetched path in every outcome —
including when the binary request returns a non-OK status and `GetFile`
returns an error: the cache mutation is not atomic with overall success. -/
theorem getFile_cache_not_atomic (b : Bot) (file : File) :
    (∀ e, b.fileByID file.FileID = .error e → (getFile b file).file = file) ∧
    (∀ f, b.fileByID file.FileID = .ok f →
      (getFile b file).file = { file with FilePath := f.FilePath }) ∧
    (∀ f resp, b.fileByID file.FileID = .ok f →
      b.newRequestErr (getFileURL b f.FilePath) = none →
      b.clientDo (getFileURL b f.FilePath) = .ok resp → resp.statusCode ≠ 200 →
      (getFile b file).error.isSome = true ∧
        (getFile b file).file.FilePath = f.FilePath) := by
  refine ⟨?_, ?_, ?_⟩
  · intro e hm; simp [getFile, hm]
  · intro f hm
    cases hr : b.newRequestErr (getFileURL b f.FilePath) with
    | some e => simp [getFile, hm, hr]
    | none =>
      cases hd : b.clientDo (getFileURL b f.FilePath) with
      | error e => simp [getFile, hm, hr, hd]
      | ok resp =>
        by_cases hs : resp.statusCode = 200 <;> simp [getFile, hm, hr, hd, hs]
  · intro f resp hm hr hd hs; simp [getFile, hm, hr, hd, hs]

/-- Witness for C10 at the fake bots `metaFailBot` (reference untouched on
metadata failure) and `notFoundBot` (path cached although the binary fetch
failed). -/
theorem getFile_cache_not_atomic_witness :
    (getFile metaFailBot sampleFile).file = sampleFile ∧
    (getFile notFoundBot sampleFile).file =
      { sampleFile with FilePath := sampleMeta.FilePath } ∧
    ((getFile notFoundBot sampleFile).error.isSome = true ∧
      (getFile notFoundBot sampleFile).file.FilePath = sampleMeta.FilePath) :=
  ⟨(getFile_cache_not_atomic metaFailBot sampleFile).1 "telegram: wrong file_id" rfl,
   (getFile_cache_not_atomic notFoundBot sampleFile).2.1 sampleMeta rfl,
   (getFile_cache_not_atomic notFoundBot sampleFile).2.2 sampleMeta
      ⟨404, "404 Not Found", 9⟩ rfl rfl rfl (by decide)⟩

end Telebot
